import Mathlib

/-!
Verification of the LLMToolBox core (`llm_tool_box/__init__.py`): a shallow
embedding of the schema-derivation engine (`SchemaGenerator`) and the
registry/dispatch engine (`ToolBox`), with theorems about name resolution,
title purging, description resolution, registration invariants, and call
dispatch.

Python's dynamic values are embedded as follows: JSON-like data (parsed
argument payloads, `model_json_schema()` output) becomes the inductive
`Json`; Python `dict`s become association lists with unique keys in
practice; a variable that the source checks against `None` becomes an
`Option`; exceptions become `Except` errors. External collaborators
(pydantic validation/construction, `docstring_parser.parse`, `json.loads`)
are consumed as capabilities: they appear as function-valued fields or
parameters, universally quantified in the theorems.
-/

/-- A JSON-like value: the shape of parsed argument payloads and of the
JSON schemas produced by a parameter model's schema export. -/
inductive Json where
  | null
  | bool (b : Bool)
  | num (n : Int)
  | str (s : String)
  | arr (elems : List Json)
  | obj (members : List (String × Json))
deriving Repr

/-- Python truthiness of a JSON-like value: `None`, `False`, `0`, `""`,
`[]` and `{}` are falsy. -/
def pyTruthy : Json → Bool
  | .null => false
  | .bool b => b
  | .num n => n != 0
  | .str s => s != ""
  | .arr es => !es.isEmpty
  | .obj ms => !ms.isEmpty

/-- Python truthiness of an optional documentation string
(`if function.__doc__:`): `None` and the empty string are falsy. -/
def docTruthy : Option String → Bool
  | none => false
  | some s => s != ""

/-- `"type" in d.keys()`: whether the member list carries a `"type"` key. -/
def hasTypeKey (ms : List (String × Json)) : Bool :=
  ms.any (fun p => p.1 == "type")

mutual

/-- `SchemaGenerator._recursive_purge_titles`: on a map-shaped node, delete
each `"title"` key when the node also carries a `"type"` key, and recurse
into every child value; the recursion is a no-op on non-map values, so
array elements are never descended into. -/
def _recursive_purge_titles : Json → Json
  | .obj ms => .obj (purgeMembers (hasTypeKey ms) ms)
  | j => j

/-- One pass over a map node's members: `ht` records whether the node has a
`"type"` key (stable during the pass, since only `"title"` keys are
deleted). -/
def purgeMembers : Bool → List (String × Json) → List (String × Json)
  | _, [] => []
  | ht, (k, v) :: rest =>
    if k == "title" && ht then purgeMembers ht rest
    else (k, _recursive_purge_titles v) :: purgeMembers ht rest

end

/-- Delete the first member carrying the given key (`params_schema.pop`;
keys are unique in a Python dict, so first-match deletion is exact). -/
def popKey (key : String) : List (String × Json) → List (String × Json)
  | [] => []
  | (k, v) :: rest => if k == key then rest else (k, v) :: popKey key rest

/-- The structural errors the engine raises at setup time. The source
raises `TypeError` for the two invariant kinds and `ValueError` for the
conflict and bad-return-type kinds; the spec's taxonomy names them
InvariantError (wrongArity, notAModel), ConflictError and
TypeError(bad-return-type). -/
inductive SGError where
  | wrongArity (funcName : String) (arity : Nat)
  | notAModel (funcName : String)
  | conflict (funcName : String)
  | badReturnType (funcName : String)
deriving Repr

/-- Whether an `SGError` is one of the two single-structured-parameter
invariant kinds. -/
def SGError.isInvariant : SGError → Bool
  | .wrongArity _ _ => true
  | .notAModel _ => true
  | _ => false

/-- A declared return type: `str` or some other type (the embedding of
`get_type_hints(function).get('return')` when it is not `None`). -/
inductive RetType where
  | str
  | other (typeName : String)
deriving Repr

/-- A structured parameter model type (a pydantic `BaseModel` subclass),
consumed as a capability: its JSON-schema export (`model_json_schema()`,
top-level members of the schema dict), its own declared field annotations
(`__annotations__`, counted), and validated construction from a field
mapping (`param_class(**tool_args)`, failing with a ValidationError
message). `V` is the type of runtime values (model instances and
observations). -/
structure ParamClass (V : Type) where
  schema : List (String × Json)
  nFields : Nat
  construct : Json → Except String V

/-- A Python function as the engine introspects it: its `__name__`, its
`__doc__`, its declared parameters (each with its name and, when the
annotation is a `BaseModel` subclass, that model; `none` embeds any
annotation lacking the structured-model capability), its declared return
type (`none` when unspecified), and the callable itself, from a validated
parameter instance to its observations. -/
structure PyFunc (V : Type) where
  name : String
  doc : Option String
  params : List (String × Option (ParamClass V))
  ret : Option RetType
  func : V → V

/-- `SchemaGenerator`: strict-mode flag and the ordered name-mapping table
of `(internalName, externalName)` pairs. -/
structure SchemaGenerator where
  strict : Bool
  name_mappings : List (String × String)

/-- `SchemaGenerator.func_name_to_schema`: first match on the internal-name
side, identity fallback. -/
def func_name_to_schema (mappings : List (String × String)) (func_name : String) : String :=
  match mappings with
  | [] => func_name
  | (fname, sname) :: rest =>
    if func_name == fname then sname else func_name_to_schema rest func_name

/-- `schema_name_to_func` (shared by `SchemaGenerator` and `ToolBox`):
first match on the external-name side, identity fallback. The result is an
`Option` because the caller `_process_unpacked` checks it against `None`;
every return site of the source injects a string. -/
def schema_name_to_func (mappings : List (String × String)) (schema_name : String) : Option String :=
  match mappings with
  | [] => some schema_name
  | (fname, sname) :: rest =>
    if schema_name == sname then some fname else schema_name_to_func rest schema_name

/-- A tool descriptor as `function_schema` assembles it: the externally
visible name, the resolved description (a JSON value: a string, or `null`
when the documentation parser yields no short description), and the purged
parameter schema, present only when the model declares at least one
field. -/
structure Descriptor where
  name : String
  description : Json
  parameters : Option (List (String × Json))
deriving Repr

/-- The embedding of `parse(doc).short_description`: `none` embeds `None`. -/
def shortDescJson : Option String → Json
  | none => .null
  | some s => .str s

/-- `SchemaGenerator.function_schema`: arity check, structured-model check,
schema export and title purge, description resolution (schema-level
description popped; documentation short-description wins unless strict
mode forbids the conflict), and descriptor assembly. `parseShort` is the
documentation-parsing capability. -/
def function_schema (g : SchemaGenerator) (parseShort : String → Option String)
    (f : PyFunc V) : Except SGError Descriptor :=
  match f.params with
  | [(_, annotation)] =>
    match annotation with
    | none => .error (.notAModel f.name)
    | some param_class =>
      let params_schema := purgeMembers (hasTypeKey param_class.schema) param_class.schema
      let description :=
        match params_schema.lookup "description" with
        | some d => d
        | none => .str ""
      let params_schema :=
        match params_schema.lookup "description" with
        | some _ => popKey "description" params_schema
        | none => params_schema
      if docTruthy f.doc then
        if pyTruthy description && g.strict then
          .error (.conflict f.name)
        else
          .ok { name := func_name_to_schema g.name_mappings f.name,
                description := shortDescJson (parseShort (f.doc.getD "")),
                parameters :=
                  if param_class.nFields > 0 then some params_schema else none }
      else
        .ok { name := func_name_to_schema g.name_mappings f.name,
              description := description,
              parameters :=
                if param_class.nFields > 0 then some params_schema else none }
  | ps => .error (.wrongArity f.name ps.length)

/-- One element of `generate_tools`' result:
`{"type": "function", "function": descriptor}`. -/
structure ToolItem where
  type : String
  function : Descriptor
deriving Repr

/-- The per-function return-type check shared by `generate_tools` and
`generate_functions`: passes when the declared return type is unspecified
or `str`. -/
def returnTypeOk : Option RetType → Bool
  | none => true
  | some .str => true
  | some (.other _) => false

/-- `SchemaGenerator.generate_tools`: for each function in order, first
check its declared return type, then derive its descriptor and wrap it as
a `ToolItem`. -/
def generate_tools (g : SchemaGenerator) (parseShort : String → Option String) :
    List (PyFunc V) → Except SGError (List ToolItem)
  | [] => .ok []
  | f :: rest =>
    if returnTypeOk f.ret then
      match function_schema g parseShort f with
      | .error e => .error e
      | .ok d =>
        match generate_tools g parseShort rest with
        | .error e => .error e
        | .ok ds => .ok ({ type := "function", function := d } :: ds)
    else .error (.badReturnType f.name)

/-- `SchemaGenerator.generate_functions`: same loop, bare descriptors. -/
def generate_functions (g : SchemaGenerator) (parseShort : String → Option String) :
    List (PyFunc V) → Except SGError (List Descriptor)
  | [] => .ok []
  | f :: rest =>
    if returnTypeOk f.ret then
      match function_schema g parseShort f with
      | .error e => .error e
      | .ok d =>
        match generate_functions g parseShort rest with
        | .error e => .error e
        | .ok ds => .ok (d :: ds)
    else .error (.badReturnType f.name)

/-- `ToolResult`: the dispatch result value. All four fields default to
`None` in the source constructor. `observations` holds the invoked
function's return value; `error` holds an error message. -/
structure ToolResult (V : Type) where
  tool_name : Option String
  tool_args : Option Json
  observations : Option V
  error : Option String

/-- `ToolBox`: strict-mode flag, the shared name-mapping table, the tool
registry (a dict keyed by internal function name, holding the function and
its parameter model), and the stored descriptor collection. -/
structure ToolBox (V : Type) where
  strict : Bool
  name_mappings : List (String × String)
  tool_registry : List (String × ((V → V) × ParamClass V))
  tool_schemas : List ToolItem

/-- Dict assignment `d[k] = v`: overwrite the entry when the key is
present, append it otherwise. -/
def dictInsert (d : List (String × α)) (k : String) (v : α) : List (String × α) :=
  if (d.lookup k).isSome then
    d.map (fun p => if p.1 == k then (k, v) else p)
  else d ++ [(k, v)]

/-- `ToolBox.register_tool`: re-check the single-structured-parameter
invariant, then store `(function, param_class)` under the function's
internal name. -/
def register_tool (tb : ToolBox V) (f : PyFunc V) : Except SGError (ToolBox V) :=
  match f.params with
  | [(_, annotation)] =>
    match annotation with
    | none => .error (.notAModel f.name)
    | some param_class =>
      .ok { tb with
            tool_registry := dictInsert tb.tool_registry f.name (f.func, param_class) }
  | ps => .error (.wrongArity f.name ps.length)

/-- The exceptions that can escape dispatch: a JSON decode failure from
`json.loads`, a `KeyError` from the registry dict lookup, and a pydantic
`ValidationError` from parameter construction. -/
inductive DispatchError where
  | jsonDecodeError (msg : String)
  | keyError (key : String)
  | validationError (msg : String)
deriving Repr, DecidableEq

/-- `ToolBox._process_unpacked`: resolve the external name (identity
fallback), return an unknown-tool `ToolResult` if resolution yielded
`None`, otherwise look the name up in the registry dict (a missing key
raises `KeyError`), construct the parameter model from the arguments (a
non-conforming mapping raises `ValidationError`), invoke the function and
wrap its return value as `observations`. -/
def _process_unpacked (tb : ToolBox V) (tool_name : String) (tool_args : Json) :
    Except DispatchError (ToolResult V) :=
  match schema_name_to_func tb.name_mappings tool_name with
  | none =>
    .ok { tool_name := some tool_name, tool_args := some tool_args,
          observations := none, error := some ("Unknown tool name: " ++ tool_name) }
  | some function_name =>
    match tb.tool_registry.lookup function_name with
    | none => .error (.keyError function_name)
    | some (function, param_class) =>
      match param_class.construct tool_args with
      | .error e => .error (.validationError e)
      | .ok param =>
        .ok { tool_name := some tool_name, tool_args := some tool_args,
              observations := some (function param), error := none }

/-- The unit of dispatch input: an external tool name and a raw JSON-encoded
argument payload. -/
structure FunctionCall where
  name : String
  arguments : String

/-- `ToolBox.process`: parse the raw arguments as JSON (`json.loads`,
consumed as a capability `jsonLoads`; a parse failure raises), then
dispatch the unpacked call. -/
def process (jsonLoads : String → Except String Json) (tb : ToolBox V)
    (function_call : FunctionCall) : Except DispatchError (ToolResult V) :=
  match jsonLoads function_call.arguments with
  | .error e => .error (.jsonDecodeError e)
  | .ok tool_args => _process_unpacked tb function_call.name tool_args

mutual

/-- The purge postcondition: no map-shaped node reachable from here by
descending only through map-valued children carries both a `"title"` and a
`"type"` key. Array children are not inspected: titles nested inside array
item schemas are outside the property's reach, matching the documented
limitation. -/
def titleClean : Json → Bool
  | .obj ms =>
    (!(hasTypeKey ms) || !(ms.any (fun p => p.1 == "title"))) && titleCleanMembers ms
  | _ => true

/-- `titleClean` over every member value of a map node. -/
def titleCleanMembers : List (String × Json) → Bool
  | [] => true
  | (_, v) :: rest => titleClean v && titleCleanMembers rest

end

/-- The single-structured-parameter invariant as introspection sees it:
exactly one declared parameter, annotated with a structured model. -/
def hasGoodSig (f : PyFunc V) : Bool :=
  match f.params with
  | [(_, some _)] => true
  | _ => false

/-- Whether an operation failed with one of the two InvariantError kinds. -/
def isInvariantFailure : Except SGError α → Bool
  | .error e => e.isInvariant
  | .ok _ => false

/-- The spec-side name-resolution function, written from the claim's words:
the first matching internal name in the mapping table, or the input itself
as identity fallback. -/
def firstMatchOrIdentity (mappings : List (String × String)) (s : String) : String :=
  ((mappings.find? (fun p => p.2 == s)).map Prod.fst).getD s

/-- A one-entry `json.loads` stub: decodes the single raw string `s` to
`j`, fails on everything else. -/
def stubJsonLoads (s : String) (j : Json) : String → Except String Json :=
  fun t => if t == s then .ok j else .error "Expecting value"

/-- The toolbox the source constructor builds with no arguments: strict,
no mappings, empty registry, no stored schemas. -/
def defaultToolBox : ToolBox Json :=
  { strict := true, name_mappings := [], tool_registry := [], tool_schemas := [] }

/-- A parameter model accepting any mapping and returning it as the
instance (stands in for a pydantic model in concrete witnesses). -/
def pcAccepting : ParamClass Json :=
  { schema := [], nFields := 1, construct := fun j => .ok j }

/-- The registered search function of the round-trip witness: one
structured parameter, textual return. -/
def fLookup : PyFunc Json :=
  { name := "lookup", doc := none, params := [("query_model", some pcAccepting)],
    ret := some .str, func := fun _ => .str "observed" }

/-- The toolbox obtained by registering `fLookup` under the
`("lookup", "search")` name mapping. -/
def tbLookup : ToolBox Json :=
  { strict := true, name_mappings := [("lookup", "search")],
    tool_registry := [("lookup", (fLookup.func, pcAccepting))], tool_schemas := [] }

/-- A parameter model whose schema carries a non-empty top-level
description (conflict witness). -/
def pcDescribed : ParamClass Json :=
  { schema := [("type", .str "object"), ("description", .str "model description")],
    nFields := 1, construct := fun j => .ok j }

/-- A documented function over `pcDescribed` (conflict witness). -/
def fDescribed : PyFunc Json :=
  { name := "described", doc := some "Function description.",
    params := [("q", some pcDescribed)], ret := none, func := fun v => v }

/-- A zero-field parameter model (parameters-omission witness). -/
def pcNoFields : ParamClass Json :=
  { schema := [("type", .str "object")], nFields := 0, construct := fun j => .ok j }

/-- An undocumented function over `pcNoFields` (parameters-omission
witness). -/
def fNoFields : PyFunc Json :=
  { name := "fzero", doc := none, params := [("q", some pcNoFields)],
    ret := none, func := fun v => v }

/-- A function with a non-textual declared return type and the wrong arity
(return-type-check-first witness). -/
def fBadRet : PyFunc Json :=
  { name := "badret", doc := none, params := [], ret := some (.other "int"),
    func := fun v => v }

/-- A parameter model that rejects every mapping with a validation message
(validation-propagation witness). -/
def pcRejecting : ParamClass Json :=
  { schema := [], nFields := 1,
    construct := fun _ => .error "1 validation error: query field required" }

/-- A toolbox whose sole registered tool rejects its arguments
(validation-propagation witness). -/
def tbRejecting : ToolBox Json :=
  { strict := true, name_mappings := [],
    tool_registry := [("reject", (fun v => v, pcRejecting))], tool_schemas := [] }

/-- A lenient-mode docstring parser stub returning a fixed short
description. -/
def stubParseShort : String → Option String :=
  fun _ => some "Function description"

/-- A representative parameter schema with titles on typed map nodes at
several depths, including one inside an array item schema. -/
def sampleSchema : Json :=
  .obj [("title", .str "Top"), ("type", .str "object"),
        ("properties", .obj [
          ("query", .obj [("title", .str "Query"), ("type", .str "string")]),
          ("tags", .obj [("title", .str "Tags"), ("type", .str "array"),
            ("items", .arr [.obj [("title", .str "Item"), ("type", .str "string")]])])])]

theorem purgeMembers_hasTypeKey (ht : Bool) (ms : List (String × Json)) :
    hasTypeKey (purgeMembers ht ms) = hasTypeKey ms := by
  induction ms with
  | nil => rfl
  | cons p rest ih =>
    obtain ⟨k, v⟩ := p
    rw [purgeMembers]
    by_cases hk : (k == "title" && ht) = true
    · rw [if_pos hk]
      have h1 : k = "title" := by
        rcases Bool.and_eq_true _ _ |>.mp hk with ⟨h1, _⟩
        simpa using h1
      subst h1
      rw [ih]
      simp [hasTypeKey]
    · rw [if_neg hk]
      simp only [hasTypeKey, List.any_cons] at ih ⊢
      rw [ih]

theorem purgeMembers_no_title (ms : List (String × Json)) :
    (purgeMembers true ms).any (fun p => p.1 == "title") = false := by
  induction ms with
  | nil => rfl
  | cons p rest ih =>
    obtain ⟨k, v⟩ := p
    by_cases hk : (k == "title") = true
    · simp [purgeMembers, hk, ih]
    · simp [purgeMembers, hk, ih]

theorem purgeMembers_false_eq_map (ms : List (String × Json)) :
    purgeMembers false ms = ms.map (fun p => (p.1, _recursive_purge_titles p.2)) := by
  induction ms with
  | nil => rfl
  | cons p rest ih =>
    obtain ⟨k, v⟩ := p
    simp [purgeMembers, ih]

mutual

theorem purge_titleClean : ∀ j : Json, titleClean (_recursive_purge_titles j) = true
  | .null => rfl
  | .bool _ => rfl
  | .num _ => rfl
  | .str _ => rfl
  | .arr _ => rfl
  | .obj ms => by
    rw [_recursive_purge_titles]
    rw [titleClean]
    rw [Bool.and_eq_true]
    constructor
    · cases h : hasTypeKey ms
      · rw [purgeMembers_hasTypeKey, h]
        rfl
      · rw [purgeMembers_no_title]
        simp
    · exact purgeMembers_titleClean (hasTypeKey ms) ms

theorem purgeMembers_titleClean :
    ∀ (ht : Bool) (ms : List (String × Json)), titleCleanMembers (purgeMembers ht ms) = true
  | _, [] => rfl
  | ht, (k, v) :: rest => by
    rw [purgeMembers]
    by_cases hk : (k == "title" && ht) = true
    · rw [if_pos hk]
      exact purgeMembers_titleClean ht rest
    · rw [if_neg hk]
      rw [titleCleanMembers, Bool.and_eq_true]
      exact ⟨purge_titleClean v, purgeMembers_titleClean ht rest⟩

end

/-- C3: `purgeTitles` removes the `"title"` key from every map-shaped node
that also carries a `"type"` key and that is reachable by descending only
through map-valued children; array-valued and other non-map children are
not descended into, so titles nested inside array item schemas remain
unchanged. -/
theorem c3_purge_titles :
    (∀ j : Json, titleClean (_recursive_purge_titles j) = true)
    ∧ (∀ es : List Json, _recursive_purge_titles (.arr es) = .arr es)
    ∧ (∀ ms : List (String × Json), hasTypeKey ms = false →
        _recursive_purge_titles (.obj ms) =
          .obj (ms.map (fun p => (p.1, _recursive_purge_titles p.2)))) := by
  refine ⟨purge_titleClean, fun es => rfl, fun ms h => ?_⟩
  rw [_recursive_purge_titles, h, purgeMembers_false_eq_map]

/-- Witness for C3 at `sampleSchema` and at a typeless one-member map: the
purged schema satisfies the reachable-no-titled-typed-node predicate, and
a map without a `"type"` key keeps its member (its value purged in
place). -/
theorem c3_purge_titles_witness :
    titleClean (_recursive_purge_titles sampleSchema) = true
    ∧ _recursive_purge_titles (Json.obj [("a", Json.null)]) =
        Json.obj [("a", Json.null)] :=
  ⟨c3_purge_titles.1 sampleSchema, c3_purge_titles.2.2 [("a", Json.null)] rfl⟩

/-- C1 (code bug): dispatching the unregistered external name
`"does_not_exist"` does not return the unknown-tool `ToolResult`: name
resolution falls back to identity, so the `None` check never fires and the
registry dict lookup raises a `KeyError` instead. -/
theorem c1_unknown_tool_raises_keyerror :
    process (stubJsonLoads "\x7b\x7d" (.obj [])) defaultToolBox
        { name := "does_not_exist", arguments := "\x7b\x7d" } =
      .error (.keyError "does_not_exist") := by
  rfl

/-- C2: registering a function under internal name `"lookup"` with the
name mapping `("lookup", "search")` and dispatching external name
`"search"` with raw arguments `'{"query": "x"}'` invokes the function on
the validated parameter instance and wraps its return value as
`observations`, with no error. -/
theorem c2_round_trip {V : Type} (jsonLoads : String → Except String Json)
    (f : PyFunc V) (pc : ParamClass V) (pname : String) (p : V)
    (strict : Bool) (ts : List ToolItem) (tb1 : ToolBox V)
    (hname : f.name = "lookup")
    (hparams : f.params = [(pname, some pc)])
    (hreg : register_tool
      { strict := strict, name_mappings := [("lookup", "search")],
        tool_registry := [], tool_schemas := ts } f = .ok tb1)
    (hload : jsonLoads "\x7b\"query\": \"x\"\x7d" = .ok (.obj [("query", .str "x")]))
    (hcon : pc.construct (.obj [("query", .str "x")]) = .ok p) :
    process jsonLoads tb1 { name := "search", arguments := "\x7b\"query\": \"x\"\x7d" } =
      .ok { tool_name := some "search",
            tool_args := some (.obj [("query", .str "x")]),
            observations := some (f.func p), error := none } := by
  simp only [register_tool, hparams] at hreg
  rw [Except.ok.injEq] at hreg
  subst hreg
  simp only [process, hload]
  simp only [_process_unpacked, schema_name_to_func, dictInsert, hname,
    List.lookup, beq_self_eq_true, if_true]
  simp [hcon]

/-- Witness for C2: the concrete round trip through `fLookup`. -/
theorem c2_round_trip_witness :
    process (stubJsonLoads "\x7b\"query\": \"x\"\x7d" (.obj [("query", .str "x")]))
        tbLookup { name := "search", arguments := "\x7b\"query\": \"x\"\x7d" } =
      .ok { tool_name := some "search",
            tool_args := some (.obj [("query", .str "x")]),
            observations := some (fLookup.func (.obj [("query", .str "x")])),
            error := none } :=
  c2_round_trip (stubJsonLoads "\x7b\"query\": \"x\"\x7d" (.obj [("query", .str "x")]))
    fLookup pcAccepting "query_model" (.obj [("query", .str "x")])
    true [] tbLookup rfl rfl rfl rfl rfl

/-- C4: when the parameter model's schema-level description and the
function's documentation are both non-empty, `function_schema` fails with
the ConflictError in strict mode; in lenient mode it succeeds and the
documentation-derived short description wins over the model's
description. -/
theorem c4_description_resolution {V : Type} (parseShort : String → Option String)
    (f : PyFunc V) (pc : ParamClass V) (pname : String) (d : String) (dv : Json)
    (mappings : List (String × String))
    (hparams : f.params = [(pname, some pc)])
    (hdoc : f.doc = some d) (hd : d ≠ "")
    (hlook : (purgeMembers (hasTypeKey pc.schema) pc.schema).lookup "description" = some dv)
    (htruthy : pyTruthy dv = true) :
    function_schema { strict := true, name_mappings := mappings } parseShort f =
        .error (.conflict f.name)
    ∧ function_schema { strict := false, name_mappings := mappings } parseShort f =
        .ok { name := func_name_to_schema mappings f.name,
              description := shortDescJson (parseShort d),
              parameters := if pc.nFields > 0
                then some (popKey "description"
                  (purgeMembers (hasTypeKey pc.schema) pc.schema))
                else none } := by
  constructor <;>
  · simp only [function_schema, hparams, hlook, hdoc]
    simp [docTruthy, hd, htruthy]

/-- Witness for C4 at `fDescribed` (documented function whose model schema
also carries a description). -/
theorem c4_description_resolution_witness :
    function_schema { strict := true, name_mappings := [] } stubParseShort fDescribed =
        .error (.conflict fDescribed.name)
    ∧ function_schema { strict := false, name_mappings := [] } stubParseShort fDescribed =
        .ok { name := func_name_to_schema [] fDescribed.name,
              description := shortDescJson (stubParseShort "Function description."),
              parameters := if pcDescribed.nFields > 0
                then some (popKey "description"
                  (purgeMembers (hasTypeKey pcDescribed.schema) pcDescribed.schema))
                else none } :=
  c4_description_resolution stubParseShort fDescribed pcDescribed "q"
    "Function description." (.str "model description") [] rfl rfl
    (by decide) rfl rfl

/-- C5: schema generation and registration fail with one of the two
InvariantError kinds exactly when the function does not declare a single
parameter annotated with a structured model; when it does, neither
operation produces an InvariantError. -/
theorem c5_invariant_errors {V : Type} (g : SchemaGenerator)
    (parseShort : String → Option String) (f : PyFunc V) (tb : ToolBox V) :
    isInvariantFailure (function_schema g parseShort f) = !(hasGoodSig f)
    ∧ isInvariantFailure (register_tool tb f) = !(hasGoodSig f) := by
  obtain ⟨fn, fdoc, fparams, fret, ffunc⟩ := f
  rcases fparams with _ | ⟨⟨pn, ann⟩, rest⟩
  · exact ⟨rfl, rfl⟩
  · rcases rest with _ | ⟨q, rest'⟩
    · rcases ann with _ | pc
      · exact ⟨rfl, rfl⟩
      · refine ⟨?_, rfl⟩
        simp only [function_schema]
        split_ifs <;> rfl
    · rcases ann with _ | pc <;> exact ⟨rfl, rfl⟩

theorem generate_tools_append_bad {V : Type} (g : SchemaGenerator)
    (parseShort : String → Option String) (pre : List (PyFunc V)) (f : PyFunc V)
    (l : List (PyFunc V)) (ts : List ToolItem)
    (h : generate_tools g parseShort pre = .ok ts)
    (hbad : returnTypeOk f.ret = false) :
    generate_tools g parseShort (pre ++ f :: l) = .error (.badReturnType f.name) := by
  induction pre generalizing ts with
  | nil =>
    rw [List.nil_append, generate_tools, hbad]
    simp
  | cons f0 rest ih =>
    rw [generate_tools] at h
    by_cases hr : returnTypeOk f0.ret = true
    · rw [if_pos hr] at h
      cases hfs : function_schema g parseShort f0 with
      | error e => rw [hfs] at h; simp at h
      | ok d =>
        rw [hfs] at h
        cases hrest : generate_tools g parseShort rest with
        | error e => rw [hrest] at h; simp at h
        | ok ds =>
          rw [List.cons_append, generate_tools, if_pos hr, hfs, ih ds hrest]
    · rw [if_neg hr] at h
      simp at h

theorem generate_functions_append_bad {V : Type} (g : SchemaGenerator)
    (parseShort : String → Option String) (pre : List (PyFunc V)) (f : PyFunc V)
    (l : List (PyFunc V)) (ds : List Descriptor)
    (h : generate_functions g parseShort pre = .ok ds)
    (hbad : returnTypeOk f.ret = false) :
    generate_functions g parseShort (pre ++ f :: l) = .error (.badReturnType f.name) := by
  induction pre generalizing ds with
  | nil =>
    rw [List.nil_append, generate_functions, hbad]
    simp
  | cons f0 rest ih =>
    rw [generate_functions] at h
    by_cases hr : returnTypeOk f0.ret = true
    · rw [if_pos hr] at h
      cases hfs : function_schema g parseShort f0 with
      | error e => rw [hfs] at h; simp at h
      | ok d =>
        rw [hfs] at h
        cases hrest : generate_functions g parseShort rest with
        | error e => rw [hrest] at h; simp at h
        | ok ds0 =>
          rw [List.cons_append, generate_functions, if_pos hr, hfs, ih ds0 hrest]
    · rw [if_neg hr] at h
      simp at h

/-- C6: in `generate_tools` and `generate_functions`, a function whose
declared return type is neither unspecified nor textual makes the whole
batch fail with the bad-return-type error once every function before it has
been processed, and the check runs before that function's descriptor is
derived (no assumption on the function's parameters is needed). -/
theorem c6_return_type_checked_first {V : Type} (g : SchemaGenerator)
    (parseShort : String → Option String) (pre rest : List (PyFunc V))
    (f : PyFunc V) (t : String)
    (hret : f.ret = some (.other t)) :
    (∀ ts, generate_tools g parseShort pre = .ok ts →
      generate_tools g parseShort (pre ++ f :: rest) = .error (.badReturnType f.name))
    ∧ (∀ ds, generate_functions g parseShort pre = .ok ds →
      generate_functions g parseShort (pre ++ f :: rest) = .error (.badReturnType f.name)) := by
  have hbad : returnTypeOk f.ret = false := by rw [hret]; rfl
  exact ⟨fun ts h => generate_tools_append_bad g parseShort pre f rest ts h hbad,
         fun ds h => generate_functions_append_bad g parseShort pre f rest ds h hbad⟩

/-- Witness for C6 at `fBadRet`, whose declared return type is `int` and
whose arity is also wrong: the return-type error wins in both batch
generators. -/
theorem c6_return_type_checked_first_witness :
    generate_tools { strict := true, name_mappings := [] } stubParseShort [fBadRet] =
        .error (.badReturnType fBadRet.name)
    ∧ generate_functions { strict := true, name_mappings := [] } stubParseShort [fBadRet] =
        .error (.badReturnType fBadRet.name) :=
  ⟨(c6_return_type_checked_first { strict := true, name_mappings := [] }
      stubParseShort [] [] fBadRet "int" rfl).1 [] rfl,
   (c6_return_type_checked_first { strict := true, name_mappings := [] }
      stubParseShort [] [] fBadRet "int" rfl).2 [] rfl⟩

/-- C7: for every function accepted by `function_schema`, the descriptor
carries a `parameters` entry exactly when the parameter model declares at
least one field; with zero fields it is omitted. -/
theorem c7_parameters_iff_fields {V : Type} (g : SchemaGenerator)
    (parseShort : String → Option String) (f : PyFunc V) (pc : ParamClass V)
    (pname : String) (d : Descriptor)
    (hparams : f.params = [(pname, some pc)])
    (hok : function_schema g parseShort f = .ok d) :
    d.parameters.isSome = decide (0 < pc.nFields) := by
  simp only [function_schema, hparams] at hok
  split at hok
  · split at hok
    · simp at hok
    · rw [Except.ok.injEq] at hok
      subst hok
      by_cases h : 0 < pc.nFields <;> simp [h]
  · rw [Except.ok.injEq] at hok
    subst hok
    by_cases h : 0 < pc.nFields <;> simp [h]

/-- Witness for C7 at the zero-field model `pcNoFields`: the descriptor
omits `parameters`. -/
theorem c7_parameters_iff_fields_witness :
    (Descriptor.parameters
        { name := "fzero", description := .str "", parameters := none }).isSome =
      decide (0 < pcNoFields.nFields) :=
  c7_parameters_iff_fields { strict := true, name_mappings := [] } stubParseShort
    fNoFields pcNoFields "q"
    { name := "fzero", description := .str "", parameters := none } rfl rfl

/-- C8: dispatching a registered tool with an argument mapping the
parameter model rejects raises the ValidationError to the caller; it is
not converted into a `ToolResult` error value. -/
theorem c8_validation_error_propagates {V : Type}
    (jsonLoads : String → Except String Json) (tb : ToolBox V)
    (call : FunctionCall) (args : Json) (fn : String) (func : V → V)
    (pc : ParamClass V) (e : String)
    (hload : jsonLoads call.arguments = .ok args)
    (hres : schema_name_to_func tb.name_mappings call.name = some fn)
    (hreg : tb.tool_registry.lookup fn = some (func, pc))
    (hcon : pc.construct args = .error e) :
    process jsonLoads tb call = .error (.validationError e) := by
  simp only [process, hload, _process_unpacked, hres, hreg, hcon]

/-- Witness for C8 at `tbRejecting`, whose sole tool's model rejects every
mapping with a missing-required-field message. -/
theorem c8_validation_error_propagates_witness :
    process (stubJsonLoads "\x7b\x7d" (.obj [])) tbRejecting
        { name := "reject", arguments := "\x7b\x7d" } =
      .error (.validationError "1 validation error: query field required") :=
  c8_validation_error_propagates (stubJsonLoads "\x7b\x7d" (.obj []))
    tbRejecting { name := "reject", arguments := "\x7b\x7d" } (.obj [])
    "reject" (fun v => v) pcRejecting
    "1 validation error: query field required" rfl rfl rfl rfl

/-- C9: every `ToolResult` returned by dispatch populates exactly one of
`observations` and `error`, never both and never neither. -/
theorem c9_result_exclusive {V : Type} (tb : ToolBox V) (tool_name : String)
    (tool_args : Json) (r : ToolResult V)
    (h : _process_unpacked tb tool_name tool_args = .ok r) :
    (r.observations.isSome = true ∧ r.error = none)
    ∨ (r.error.isSome = true ∧ r.observations = none) := by
  rw [_process_unpacked] at h
  split at h
  · simp only [Except.ok.injEq] at h
    subst h
    right
    exact ⟨rfl, rfl⟩
  · split at h
    · simp at h
    · split at h
      · simp at h
      · simp only [Except.ok.injEq] at h
        subst h
        left
        exact ⟨rfl, rfl⟩

/-- Witness for C9 at a successful dispatch through `tbLookup`. -/
theorem c9_result_exclusive_witness :
    ((ToolResult.mk (V := Json) (some "search") (some (.obj [("query", .str "x")]))
        (some (.str "observed")) none).observations.isSome = true
      ∧ (ToolResult.mk (V := Json) (some "search") (some (.obj [("query", .str "x")]))
        (some (.str "observed")) none).error = none)
    ∨ ((ToolResult.mk (V := Json) (some "search") (some (.obj [("query", .str "x")]))
        (some (.str "observed")) none).error.isSome = true
      ∧ (ToolResult.mk (V := Json) (some "search") (some (.obj [("query", .str "x")]))
        (some (.str "observed")) none).observations = none) :=
  c9_result_exclusive tbLookup "search" (.obj [("query", .str "x")])
    (ToolResult.mk (some "search") (some (.obj [("query", .str "x")]))
      (some (.str "observed")) none) rfl

theorem schema_name_to_func_eq_firstMatch (mappings : List (String × String))
    (s : String) :
    schema_name_to_func mappings s = some (firstMatchOrIdentity mappings s) := by
  induction mappings with
  | nil => rfl
  | cons p rest ih =>
    obtain ⟨fn, sn⟩ := p
    by_cases h : (s == sn) = true
    · have h' : s = sn := by simpa using h
      subst h'
      simp [schema_name_to_func, firstMatchOrIdentity, List.find?]
    · have h' : ¬ s = sn := by simpa using h
      have h'' : (sn == s) = false := by simpa using fun hh => h' hh.symm
      simp only [schema_name_to_func, if_neg h, firstMatchOrIdentity, List.find?, h'']
      exact ih

/-- C10: name resolution always yields a string — the first matching
internal name, or the input itself — and never `None`; consequently the
unknown-tool branch of `_process_unpacked` is never taken, so no returned
`ToolResult` carries an error. -/
theorem c10_resolution_never_none :
    (∀ (mappings : List (String × String)) (s : String),
        schema_name_to_func mappings s = some (firstMatchOrIdentity mappings s))
    ∧ (∀ (V : Type) (tb : ToolBox V) (tool_name : String) (tool_args : Json)
        (r : ToolResult V),
        _process_unpacked tb tool_name tool_args = .ok r → r.error = none) := by
  refine ⟨schema_name_to_func_eq_firstMatch, ?_⟩
  intro V tb tool_name tool_args r h
  rw [_process_unpacked] at h
  split at h
  · rename_i heq
    rw [schema_name_to_func_eq_firstMatch] at heq
    simp at heq
  · split at h
    · simp at h
    · split at h
      · simp at h
      · simp only [Except.ok.injEq] at h
        subst h
        rfl

/-- Witness for C10: resolution of `"search"` through the lookup table, and
the error field of a concrete dispatched result. -/
theorem c10_resolution_never_none_witness :
    schema_name_to_func [("lookup", "search")] "search" =
        some (firstMatchOrIdentity [("lookup", "search")] "search")
    ∧ (ToolResult.mk (V := Json) (some "search") (some (.obj [("query", .str "x")]))
        (some (.str "observed")) none).error = none :=
  ⟨c10_resolution_never_none.1 [("lookup", "search")] "search",
   c10_resolution_never_none.2 Json tbLookup "search" (.obj [("query", .str "x")])
     (ToolResult.mk (some "search") (some (.obj [("query", .str "x")]))
       (some (.str "observed")) none) rfl⟩
